import Mathlib

/-
Verification development for the HGN (Hamiltonian Generative Network) core,
a shallow embedding of src/hamiltonian_generative_network.py.

Modelling conventions:
  - Python exceptions are modelled with Except PyErr.
  - Tensors are modelled as a shape (List Nat) together with flattened real
    data; tensor arithmetic used by the KL computation is elementwise over ℝ.
  - The orchestrator threads an explicit simulation state (event trace,
    optimizer parameters, gradients) through every call, so that statements
    such as "the optimizer step never executed" and "the encoder was never
    invoked" are expressible as facts about the trace and the state.
  - The collaborator networks (encoder, transformer, Hamiltonian net, decoder,
    integrator, optimizer, loss) are external to the core (spec section 1) and
    are modelled as arbitrary function-valued fields of the HGN structure.
  - utilities/conversions.py and utilities/hgn_result.py are not part of the
    given source; their definitions below are modelled from the spec and are
    marked as such in their doc comments.
-/

namespace HGNV

/-- Python-level error taxonomy: TypeError plus the spec's error taxonomy
(section 7): ShapeError, NotFoundError, DeserializationError. -/
inductive PyErr where
  | typeError
  | shapeError
  | notFoundError
  | deserializationError
deriving DecidableEq, Repr

/-- Observable events recorded by the simulation: one event per collaborator
invocation plus optimizer bookkeeping events. -/
inductive Ev where
  | zeroGradCall
  | encoderCall
  | transformerCall
  | decoderCall
  | integratorCall
  | lossCall
  | backwardCall
  | optStep
deriving DecidableEq, Repr

/-- A torch tensor: shape plus flattened data (row-major). -/
structure Tensor where
  shape : List Nat
  data : List ℝ

/-- A scalar-valued torch tensor (such as a loss value), still attached to the
autograd graph. Calling detach().numpy() on it yields the plain number. -/
structure TorchScalar where
  val : ℝ

/-- Model of tensor.detach().numpy() on a scalar: the plain numeric value. -/
def TorchScalar.detachNumpy (s : TorchScalar) : ℝ := s.val

/-- Elementwise subtraction of two same-shaped tensors (zip truncates, which
is only exercised on same-length data in this development). -/
def zipSub (a b : List ℝ) : List ℝ := (a.zip b).map fun p => p.1 - p.2

/-- torch elementwise power: tensor.pow(n). -/
def Tensor.pow (t : Tensor) (n : Nat) : Tensor := ⟨t.shape, t.data.map fun x => x ^ n⟩

/-- torch elementwise exponential: tensor.exp(). -/
noncomputable def Tensor.exp (t : Tensor) : Tensor := ⟨t.shape, t.data.map Real.exp⟩

/-- torch elementwise subtraction between same-shaped tensors. -/
def Tensor.sub (a b : Tensor) : Tensor := ⟨a.shape, zipSub a.data b.data⟩

/-- Broadcasting scalar + tensor, as in the expression 1 + logvar. -/
def Tensor.scalarAdd (c : ℝ) (t : Tensor) : Tensor := ⟨t.shape, t.data.map fun x => c + x⟩

/-- torch.mean over all elements of a tensor. -/
noncomputable def Tensor.mean (t : Tensor) : ℝ := t.data.sum / (t.data.length : ℝ)

/-- torch.Size is an immutable tuple subclass, so item assignment
(prediction_shape[1] = n_steps, line 78 of the source) raises TypeError for
every receiver, index and value. -/
def torchSizeSetItem (_s : List Nat) (_i : Nat) (_v : Int) : Except PyErr (List Int) :=
  Except.error PyErr.typeError

/-- Modelled from the spec: utilities/conversions.py (concat_rgb) is not in
src/. Spec section 4.2 step 1: concatenate the channel dimension of the first
two frames of the rollout into a single encoder input tensor with doubled
channel depth; fails with ShapeError if fewer than 2 time steps are present
(or if the batch is not a 5-dimensional array, spec section 3). -/
def concat_rgb (x : Tensor) : Except PyErr Tensor :=
  match x.shape with
  | [b, t, c, hgt, w] =>
    if t < 2 then Except.error PyErr.shapeError
    else Except.ok
      { shape := [b, 2 * c, hgt, w]
        data := (List.range b).flatMap fun i =>
          ((x.data.drop (i * (t * (c * (hgt * w)))))).take (2 * (c * (hgt * w))) }
  | _ => Except.error PyErr.shapeError

/-- Modelled from the spec: utilities/hgn_result.py (HgnResult) is not in
src/. Spec section 4.1: the rollout accumulator owns the input batch
reference, the latent distribution triple, and two growable ordered sequences
of canonical states and reconstructed frames. Attributes start unset (None). -/
structure HgnResult where
  batch_shape : List Int
  input : Option Tensor
  z_mean : Option Tensor
  z_logvar : Option Tensor
  z_sample : Option Tensor
  states : List (Tensor × Tensor)
  reconstructions : List Tensor

/-- Modelled from the spec: HgnResult construction with a known final batch
shape (batch, steps, channels, height, width); fails with ShapeError if the
shape is malformed, e.g. has a non-positive entry such as a non-positive step
count (spec section 4.1). -/
def HgnResult.init (batch_shape : List Int) : Except PyErr HgnResult :=
  if batch_shape.length == 5 && batch_shape.all (fun d => 0 < d) then
    Except.ok ⟨batch_shape, none, none, none, none, [], []⟩
  else Except.error PyErr.shapeError

/-- Modelled from the spec: set_input stores the original stacked-frame batch
reference for later loss computation (shared ownership, no copy). -/
def HgnResult.set_input (r : HgnResult) (batch : Tensor) : HgnResult :=
  { r with input := some batch }

/-- Modelled from the spec: set_z stores the single latent-distribution triple
for the whole rollout. -/
def HgnResult.set_z (r : HgnResult) (z_mean z_logvar z_sample : Tensor) : HgnResult :=
  { r with z_mean := some z_mean, z_logvar := some z_logvar, z_sample := some z_sample }

/-- Modelled from the spec: append one canonical-state pair to the ordered
state sequence. -/
def HgnResult.append_state (r : HgnResult) (q p : Tensor) : HgnResult :=
  { r with states := r.states ++ [(q, p)] }

/-- Modelled from the spec: append one decoded frame, in order matching the
appended states. -/
def HgnResult.append_reconstruction (r : HgnResult) (x : Tensor) : HgnResult :=
  { r with reconstructions := r.reconstructions ++ [x] }

/-- Modelled from the spec: the accessor exposing the full reconstructed
sequence as a single stacked tensor aligned on the time axis (axis 1). -/
def stackTimeAxis (frames : List Tensor) : Tensor :=
  match frames with
  | [] => ⟨[], []⟩
  | f :: _ =>
    match f.shape with
    | b :: rest =>
      ⟨b :: frames.length :: rest,
        (List.range b).flatMap fun i =>
          frames.flatMap fun fr => (fr.data.drop (i * rest.prod)).take rest.prod⟩
    | [] => ⟨[frames.length], frames.flatMap fun fr => fr.data⟩

/-- Modelled from the spec: HgnResult accessor for the stacked reconstructed
rollout. -/
def HgnResult.reconstructed_rollout (r : HgnResult) : Tensor :=
  stackTimeAxis r.reconstructions

/-- Python attribute dereference on a field that may still be None: calling a
method on None raises TypeError. -/
def attrT : Option Tensor → Except PyErr Tensor
  | some t => Except.ok t
  | none => Except.error PyErr.typeError

/-- Simulation state threaded through the orchestrator: the event trace, the
optimizer parameters (type P) and the autograd gradients (type G). -/
structure Sim (P G : Type) where
  trace : List Ev
  params : P
  grads : G

/-- The orchestration monad: explicit state passing with Python exceptions.
On an exception the state reached so far is preserved. -/
def SimM (P G : Type) (α : Type) : Type := Sim P G → Except PyErr α × Sim P G

instance : Monad (SimM P G) where
  pure a := fun s => (Except.ok a, s)
  bind x f := fun s =>
    match x s with
    | (Except.ok a, s1) => f a s1
    | (Except.error e, s1) => (Except.error e, s1)

/-- Lift a pure fallible computation (one that touches no simulation state). -/
def SimM.ofExcept (x : Except PyErr α) : SimM P G α := fun s => (x, s)

/-- Invoke an external collaborator: record its event, then return its result
or propagate its exception. -/
def callC (ev : Ev) (r : Except PyErr α) : SimM P G α :=
  fun s => (r, { s with trace := s.trace ++ [ev] })

theorem SimM.bind_apply (x : SimM P G α) (f : α → SimM P G β) (s : Sim P G) :
    (x >>= f) s =
      match x s with
      | (Except.ok a, s1) => f a s1
      | (Except.error e, s1) => (Except.error e, s1) := rfl

theorem SimM.pure_apply (a : α) (s : Sim P G) :
    (pure a : SimM P G α) s = (Except.ok a, s) := rfl

theorem SimM.ofExcept_apply (x : Except PyErr α) (s : Sim P G) :
    (SimM.ofExcept x : SimM P G α) s = (x, s) := rfl

theorem callC_apply (ev : Ev) (r : Except PyErr α) (s : Sim P G) :
    (callC ev r : SimM P G α) s = (r, { s with trace := s.trace ++ [ev] }) := rfl

/-- The HGN model: the four learnable components, the integrator, the
optimizer, the loss, and the configuration parameters, exactly the fields
stored by HGN.__init__ in the source. Collaborators are arbitrary functions
(they are external to the core). H is the type of the Hamiltonian network,
P the optimizer parameter state, G the gradient state. -/
structure HGN (H P G : Type) where
  encoder : Tensor → Bool → Except PyErr (Tensor × Tensor × Tensor)
  transformer : Tensor → Except PyErr (Tensor × Tensor)
  hnn : H
  decoder : Tensor → Except PyErr Tensor
  integrator_step : Tensor → Tensor → H → Except PyErr (Tensor × Tensor)
  optimizer_zero_grad : G → G
  optimizer_step : P → P
  backward : ℝ → G → Except PyErr G
  loss : Option Tensor → Tensor → Except PyErr TorchScalar
  seq_len : Int
  channels : Int

/-- The fixed checkpoint filename for the encoder (class attribute). -/
def HGN.ENCODER_FILENAME : String := "encoder.pt"

/-- The fixed checkpoint filename for the transformer (class attribute). -/
def HGN.TRANSFORMER_FILENAME : String := "transformer.pt"

/-- The fixed checkpoint filename for the Hamiltonian network (class attribute). -/
def HGN.HAMILTONIAN_FILENAME : String := "hamiltonian.pt"

/-- The fixed checkpoint filename for the decoder (class attribute). -/
def HGN.DECODER_FILENAME : String := "decoder.pt"

/-- optimizer.zero_grad(): resets the gradient state, records its event. -/
def zeroGradAct (hgn : HGN H P G) : SimM P G Unit :=
  fun s => (Except.ok (), { s with grads := hgn.optimizer_zero_grad s.grads,
                                   trace := s.trace ++ [Ev.zeroGradCall] })

/-- total_loss.backward(): runs autograd on the total loss, updating the
gradient state (or raising), records its event. -/
def backwardAct (hgn : HGN H P G) (l : ℝ) : SimM P G Unit :=
  fun s =>
    match hgn.backward l s.grads with
    | Except.ok g => (Except.ok (), { s with grads := g, trace := s.trace ++ [Ev.backwardCall] })
    | Except.error e => (Except.error e, { s with trace := s.trace ++ [Ev.backwardCall] })

/-- optimizer.step(): applies the parameter update, records its event. This is
the only operation in the development that mutates the parameters P. -/
def optStepAct (hgn : HGN H P G) : SimM P G Unit :=
  fun s => (Except.ok (), { s with params := hgn.optimizer_step s.params,
                                   trace := s.trace ++ [Ev.optStep] })

/-- The estimation loop of HGN.forward (source lines 95-102): for each of the
remaining steps, one integrator step, one state append, one decode, one
reconstruction append. -/
def HGN.rolloutLoop (hgn : HGN H P G) :
    Nat → Tensor → Tensor → HgnResult → SimM P G HgnResult
  | 0, _, _, prediction => pure prediction
  | Nat.succ k, q, p, prediction => do
    let qp ← callC Ev.integratorCall (hgn.integrator_step q p hgn.hnn)
    let prediction := prediction.append_state qp.1 qp.2
    let x_reconstructed ← callC Ev.decoderCall (hgn.decoder qp.1)
    let prediction := prediction.append_reconstruction x_reconstructed
    hgn.rolloutLoop k qp.1 qp.2 prediction

/-- HGN.forward (source lines 59-103), line by line: default n_steps to
seq_len, concat_rgb the batch, take the batch shape and item-assign n_steps
into index 1 of it, build the HgnResult, store the input, encode, store the
latent triple, transform to the initial state, append it and its decoded
reconstruction, then run the estimation loop n_steps - 1 times. -/
def HGN.forward (hgn : HGN H P G) (rollout_batch : Tensor) (n_steps : Option Int)
    (variational : Bool) : SimM P G HgnResult := do
  let n_steps := n_steps.getD hgn.seq_len
  let rollout_batch ← SimM.ofExcept (concat_rgb rollout_batch)
  let prediction_shape := rollout_batch.shape
  let prediction_shape ← SimM.ofExcept (torchSizeSetItem prediction_shape 1 n_steps)
  let prediction ← SimM.ofExcept (HgnResult.init prediction_shape)
  let prediction := prediction.set_input rollout_batch
  let zs ← callC Ev.encoderCall (hgn.encoder rollout_batch variational)
  let prediction := prediction.set_z zs.2.1 zs.2.2 zs.1
  let qp ← callC Ev.transformerCall (hgn.transformer zs.1)
  let prediction := prediction.append_state qp.1 qp.2
  let x_reconstructed ← callC Ev.decoderCall (hgn.decoder qp.1)
  let prediction := prediction.append_reconstruction x_reconstructed
  hgn.rolloutLoop (n_steps - 1).toNat qp.1 qp.2 prediction

/-- The fixed KL weighting constant of HGN.fit (source line 138): beta = 0.01. -/
noncomputable def beta : ℝ := 0.01

/-- The KL-divergence computation of HGN.fit (source line 136):
kl_div = -0.5 * torch.mean(1 + logvar - mu.pow(2) - logvar.exp()). -/
noncomputable def klDivergence (mu logvar : Tensor) : ℝ :=
  -0.5 * Tensor.mean (((Tensor.scalarAdd 1 logvar).sub (mu.pow 2)).sub logvar.exp)

/-- The total-loss combination of HGN.fit (source lines 129 and 139):
total_loss starts as the reconstruction error and, in the variational case,
beta * kl_div is added to it. -/
noncomputable def totalLossOf (reconstruction_error : TorchScalar)
    (kl_div : Option TorchScalar) : ℝ :=
  match kl_div with
  | some kl => reconstruction_error.val + beta * kl.val
  | none => reconstruction_error.val

/-- The part of HGN.fit after the forward pass (source lines 125-146): the
loss call on (prediction.input, prediction.reconstructed_rollout), the
optional KL divergence, the total loss, backward, the optimizer step, and the
detached numeric return values paired with the prediction object. -/
noncomputable def HGN.fitAfterForward (hgn : HGN H P G) (prediction : HgnResult)
    (variational : Bool) : SimM P G (ℝ × Option ℝ × HgnResult) := do
  let reconstruction_error ←
    callC Ev.lossCall (hgn.loss prediction.input prediction.reconstructed_rollout)
  let kl_div ←
    if variational then do
      let mu ← SimM.ofExcept (attrT prediction.z_mean)
      let logvar ← SimM.ofExcept (attrT prediction.z_logvar)
      pure (some (TorchScalar.mk (klDivergence mu logvar)))
    else pure (none : Option TorchScalar)
  let total_loss := totalLossOf reconstruction_error kl_div
  backwardAct hgn total_loss
  optStepAct hgn
  let reconstruction_error_np := reconstruction_error.detachNumpy
  let kl_div_np := kl_div.map TorchScalar.detachNumpy
  pure (reconstruction_error_np, kl_div_np, prediction)

/-- HGN.fit (source lines 105-146): zero the gradients, run the forward pass
on the rollouts with the default n_steps (None) and the given variational
flag, then compute losses, backpropagate, step the optimizer and return the
numeric losses together with the prediction. -/
noncomputable def HGN.fit (hgn : HGN H P G) (rollouts : Tensor) (variational : Bool) :
    SimM P G (ℝ × Option ℝ × HgnResult) := do
  zeroGradAct hgn
  let prediction ← hgn.forward rollouts none variational
  hgn.fitAfterForward prediction variational

/-
Persistence (HGN.save / HGN.load, source lines 148-169). The filesystem is a
store of serialized objects indexed by (directory, filename) paths plus the
set of existing directories; os.path.join(directory, filename) is modelled as
the pair. torch.save writes an object; torch.load reads it back, raising the
spec's NotFoundError when the file is missing and DeserializationError when
the stored object is not of the expected component kind (spec section 4.4).
-/

/-- A filesystem path: (directory, filename), the model of os.path.join. -/
def pathJoin (d f : String) : String × String := (d, f)

/-- A serialized object, as produced by torch.save on one of the four
learnable components. -/
inductive SavedObj (H : Type) where
  | encoderObj (e : Tensor → Bool → Except PyErr (Tensor × Tensor × Tensor))
  | transformerObj (t : Tensor → Except PyErr (Tensor × Tensor))
  | hnnObj (h : H)
  | decoderObj (d : Tensor → Except PyErr Tensor)

/-- The filesystem: existing directories and a path-indexed file store. -/
structure FS (H : Type) where
  dirs : List String
  files : List ((String × String) × SavedObj H)

/-- Write a file, overwriting any previous content at that path. -/
def FS.write (fs : FS H) (p : String × String) (o : SavedObj H) : FS H :=
  { fs with files := (p, o) :: fs.files.filter (fun kv => kv.1 ≠ p) }

/-- Read a file if present. -/
def FS.read (fs : FS H) (p : String × String) : Option (SavedObj H) :=
  (fs.files.find? (fun kv => kv.1 = p)).map (fun kv => kv.2)

/-- pathlib.Path(directory).mkdir(parents=True, exist_ok=True): ensure the
directory exists; no error if it already exists. -/
def FS.mkdirP (fs : FS H) (d : String) : FS H :=
  if d ∈ fs.dirs then fs else { fs with dirs := d :: fs.dirs }

/-- torch.load: read a serialized object, NotFoundError if absent. -/
def torch_load (fs : FS H) (p : String × String) : Except PyErr (SavedObj H) :=
  match fs.read p with
  | some o => Except.ok o
  | none => Except.error PyErr.notFoundError

/-- Interpret a loaded object as an encoder; incompatible serialized data
surfaces as DeserializationError (spec section 4.4). -/
def asEncoder : SavedObj H → Except PyErr (Tensor → Bool → Except PyErr (Tensor × Tensor × Tensor))
  | SavedObj.encoderObj e => Except.ok e
  | _ => Except.error PyErr.deserializationError

/-- Interpret a loaded object as a transformer. -/
def asTransformer : SavedObj H → Except PyErr (Tensor → Except PyErr (Tensor × Tensor))
  | SavedObj.transformerObj t => Except.ok t
  | _ => Except.error PyErr.deserializationError

/-- Interpret a loaded object as a Hamiltonian network. -/
def asHnn : SavedObj H → Except PyErr H
  | SavedObj.hnnObj h => Except.ok h
  | _ => Except.error PyErr.deserializationError

/-- Interpret a loaded object as a decoder. -/
def asDecoder : SavedObj H → Except PyErr (Tensor → Except PyErr Tensor)
  | SavedObj.decoderObj d => Except.ok d
  | _ => Except.error PyErr.deserializationError

/-- HGN.save (source lines 159-169): ensure the directory exists (parents,
exist_ok), then serialize the four learnable components to the four fixed
filenames inside it. Touches nothing else: the returned model state is the
filesystem only. -/
def HGN.save (hgn : HGN H P G) (directory : String) (fs : FS H) : FS H :=
  let fs := fs.mkdirP directory
  let fs := fs.write (pathJoin directory HGN.ENCODER_FILENAME) (SavedObj.encoderObj hgn.encoder)
  let fs := fs.write (pathJoin directory HGN.TRANSFORMER_FILENAME)
    (SavedObj.transformerObj hgn.transformer)
  let fs := fs.write (pathJoin directory HGN.HAMILTONIAN_FILENAME) (SavedObj.hnnObj hgn.hnn)
  let fs := fs.write (pathJoin directory HGN.DECODER_FILENAME) (SavedObj.decoderObj hgn.decoder)
  fs

/-- HGN.load (source lines 148-157): deserialize the four components from the
four fixed filenames, replacing exactly those four in-memory references; the
optimizer, the loss, the integrator and the seq_len / channels configuration
are untouched. -/
def HGN.load (hgn : HGN H P G) (directory : String) (fs : FS H) : Except PyErr (HGN H P G) := do
  let e ← torch_load fs (pathJoin directory HGN.ENCODER_FILENAME) >>= asEncoder
  let t ← torch_load fs (pathJoin directory HGN.TRANSFORMER_FILENAME) >>= asTransformer
  let hh ← torch_load fs (pathJoin directory HGN.HAMILTONIAN_FILENAME) >>= asHnn
  let d ← torch_load fs (pathJoin directory HGN.DECODER_FILENAME) >>= asDecoder
  pure { hgn with encoder := e, transformer := t, hnn := hh, decoder := d }

/-
Definitions and lemmas supporting the claim theorems.
-/

/-- The spec's closed-form Gaussian KL, written from the spec's words
(refinement comparison target): KL is minus one half times the mean over
elements of 1 + logvar - mean^2 - exp(logvar), with the elementwise
expression formed by pairing the mean and log-variance entries. -/
noncomputable def klClosedForm (mu logvar : Tensor) : ℝ :=
  -0.5 * (((mu.data.zip logvar.data).map fun ml => 1 + ml.2 - ml.1 ^ 2 - Real.exp ml.2).sum /
    (((mu.data.zip logvar.data).map fun ml => 1 + ml.2 - ml.1 ^ 2 - Real.exp ml.2).length : ℝ))

theorem klData_eq (ms ls : List ℝ) :
    zipSub (zipSub (ls.map fun x => 1 + x) (ms.map fun x => x ^ 2)) (ls.map Real.exp)
      = (ms.zip ls).map fun ml => 1 + ml.2 - ml.1 ^ 2 - Real.exp ml.2 := by
  induction ms generalizing ls with
  | nil => cases ls <;> simp [zipSub]
  | cons m ms ih =>
    cases ls with
    | nil => simp [zipSub]
    | cons l ls =>
      simpa [zipSub] using ih ls

theorem klDivergence_data (mu logvar : Tensor) :
    (((Tensor.scalarAdd 1 logvar).sub (mu.pow 2)).sub logvar.exp).data
      = (mu.data.zip logvar.data).map fun ml => 1 + ml.2 - ml.1 ^ 2 - Real.exp ml.2 := by
  simpa [Tensor.sub, Tensor.scalarAdd, Tensor.pow, Tensor.exp] using klData_eq mu.data logvar.data

/-- Every run of HGN.forward raises an exception and leaves the simulation
state exactly as it was: no collaborator event is ever recorded. -/
theorem forward_raises (hgn : HGN H P G) (rb : Tensor) (ns : Option Int) (v : Bool)
    (s : Sim P G) : ∃ e, hgn.forward rb ns v s = (Except.error e, s) := by
  cases hok : concat_rgb rb with
  | error e =>
    exact ⟨e, by simp [HGN.forward, SimM.bind_apply, SimM.ofExcept_apply, hok]⟩
  | ok cb =>
    exact ⟨PyErr.typeError,
      by simp [HGN.forward, SimM.bind_apply, SimM.ofExcept_apply, hok, torchSizeSetItem]⟩

/-
Concrete fixtures used by witnesses and counterexample evaluations.
-/

/-- A concrete tensor of the given shape filled with zeros. -/
noncomputable def tenOf (sh : List Nat) : Tensor := ⟨sh, List.replicate sh.prod 0⟩

/-- A concrete valid rollout batch: batch 1, two time steps, one channel,
2 x 2 frames. -/
noncomputable def batW : Tensor := tenOf [1, 2, 1, 2, 2]

/-- A concrete rollout batch with a single time step. -/
noncomputable def batT1 : Tensor := tenOf [1, 1, 1, 2, 2]

/-- A concrete HGN instance with total, deterministic collaborators: the
Hamiltonian network is trivial, parameters and gradients are integers, the
optimizer step increments the parameters, and the loss is the constant 1. -/
noncomputable def hgnW : HGN Unit Int Int where
  encoder := fun x _ => Except.ok (x, x, x)
  transformer := fun z => Except.ok (z, z)
  hnn := ()
  decoder := fun q => Except.ok q
  integrator_step := fun q p _ => Except.ok (q, p)
  optimizer_zero_grad := fun _ => 0
  optimizer_step := fun p => p + 1
  backward := fun _ g => Except.ok (g + 1)
  loss := fun _ _ => Except.ok ⟨1⟩
  seq_len := 4
  channels := 1

/-- A concrete initial simulation state: empty trace, parameters 5, grads 7. -/
def s0 : Sim Int Int := ⟨[], 5, 7⟩

/-- Characterization of every successful run of the post-forward part of fit:
the reconstruction error returned is the numeric value produced by the
configured loss on (prediction.input, prediction.reconstructed_rollout), the
prediction object is returned unchanged, the recorded events are exactly the
loss call, the backward call and the optimizer step, the parameters are
stepped exactly once, and the KL slot is filled from the latent attributes
when variational and is none otherwise. -/
theorem fitAfterForward_run_spec (hgn : HGN H P G) (pred : HgnResult) (v : Bool)
    (s s1 : Sim P G) (r : ℝ) (k : Option ℝ) (p : HgnResult)
    (hrun : hgn.fitAfterForward pred v s = (Except.ok (r, k, p), s1)) :
    ∃ sc, hgn.loss pred.input pred.reconstructed_rollout = Except.ok sc
      ∧ r = sc.val ∧ p = pred
      ∧ s1.trace = s.trace ++ [Ev.lossCall, Ev.backwardCall, Ev.optStep]
      ∧ s1.params = hgn.optimizer_step s.params
      ∧ (v = true → ∃ mu lv, pred.z_mean = some mu ∧ pred.z_logvar = some lv
            ∧ k = some (klDivergence mu lv))
      ∧ (v = false → k = none) := by
  cases hl : hgn.loss pred.input pred.reconstructed_rollout with
  | error e =>
    exfalso
    simp [HGN.fitAfterForward, SimM.bind_apply, callC_apply, hl] at hrun
  | ok sc =>
    refine ⟨sc, rfl, ?_⟩
    cases v with
    | false =>
      cases hb : hgn.backward (totalLossOf sc none) s.grads with
      | error e =>
        exfalso
        simp [HGN.fitAfterForward, SimM.bind_apply, SimM.pure_apply, callC_apply, hl,
          backwardAct, hb] at hrun
      | ok g =>
        simp [HGN.fitAfterForward, SimM.bind_apply, SimM.pure_apply, callC_apply, hl,
          backwardAct, optStepAct, hb, TorchScalar.detachNumpy] at hrun
        obtain ⟨⟨hr, hk, hp⟩, hs1⟩ := hrun
        subst hs1
        refine ⟨hr.symm, hp.symm, by simp, by simp, by simp, fun _ => hk.symm⟩
    | true =>
      cases hm : pred.z_mean with
      | none =>
        exfalso
        simp [HGN.fitAfterForward, SimM.bind_apply, SimM.pure_apply, SimM.ofExcept_apply,
          callC_apply, hl, attrT, hm] at hrun
      | some mu =>
        cases hlv : pred.z_logvar with
        | none =>
          exfalso
          simp [HGN.fitAfterForward, SimM.bind_apply, SimM.pure_apply, SimM.ofExcept_apply,
            callC_apply, hl, attrT, hm, hlv] at hrun
        | some lv =>
          cases hb : hgn.backward (totalLossOf sc (some ⟨klDivergence mu lv⟩)) s.grads with
          | error e =>
            exfalso
            simp [HGN.fitAfterForward, SimM.bind_apply, SimM.pure_apply, SimM.ofExcept_apply,
              callC_apply, hl, attrT, hm, hlv, backwardAct, hb] at hrun
          | ok g =>
            simp [HGN.fitAfterForward, SimM.bind_apply, SimM.pure_apply, SimM.ofExcept_apply,
              callC_apply, hl, attrT, hm, hlv, backwardAct, optStepAct, hb,
              TorchScalar.detachNumpy] at hrun
            obtain ⟨⟨hr, hk, hp⟩, hs1⟩ := hrun
            subst hs1
            exact ⟨hr.symm, hp.symm, by simp, by simp,
              fun _ => ⟨mu, lv, rfl, rfl, hk.symm⟩, by simp⟩

theorem find_key_filter (l : List ((String × String) × SavedObj H)) (p q : String × String)
    (h : q ≠ p) :
    (l.filter (fun kv => kv.1 ≠ p)).find? (fun kv => kv.1 = q)
      = l.find? (fun kv => kv.1 = q) := by
  induction l with
  | nil => rfl
  | cons a l ih =>
    by_cases ha : a.1 = p
    · have haq : ¬ a.1 = q := fun hc => h (hc.symm.trans ha)
      simpa [List.filter_cons, List.find?_cons, ha, haq, Ne.symm h] using ih
    · by_cases haq : a.1 = q
      · simp [List.filter_cons, List.find?_cons, ha, haq, h]
      · simpa [List.filter_cons, List.find?_cons, ha, haq] using ih

theorem FS.read_write (fs : FS H) (p q : String × String) (o : SavedObj H) :
    (fs.write p o).read q = if q = p then some o else fs.read q := by
  rcases eq_or_ne q p with h | h
  · subst h
    simp [FS.write, FS.read]
  · simp only [FS.write, FS.read, if_neg h]
    have hne : ¬ (p, o).1 = q := fun hc => h hc.symm
    simp only [List.find?_cons, hne, decide_eq_true_eq]
    rw [find_key_filter _ _ _ h]
    simp [hne]

theorem except_bind_ok (x : Except PyErr α) (f : α → Except PyErr β) (b : β)
    (h : x >>= f = Except.ok b) : ∃ a, x = Except.ok a ∧ f a = Except.ok b := by
  cases x with
  | error e => simp [Bind.bind, Except.bind] at h
  | ok a => exact ⟨a, rfl, by simpa [Bind.bind, Except.bind] using h⟩

theorem load_fields (hgn : HGN H P G) (dir : String) (fs : FS H) (hgn2 : HGN H P G)
    (h : hgn.load dir fs = Except.ok hgn2) :
    ∃ e t hh d, hgn2 = { hgn with encoder := e, transformer := t, hnn := hh, decoder := d } := by
  unfold HGN.load at h
  obtain ⟨e, he, h⟩ := except_bind_ok _ _ _ h
  obtain ⟨t, ht, h⟩ := except_bind_ok _ _ _ h
  obtain ⟨hh, hhh, h⟩ := except_bind_ok _ _ _ h
  obtain ⟨d, hd, h⟩ := except_bind_ok _ _ _ h
  refine ⟨e, t, hh, d, ?_⟩
  cases h
  rfl

/-
Claim theorems.
-/

/-- C10 (confirmed): forward builds the prediction shape by item-assigning
n_steps into index 1 of the object returned by the batch's shape accessor
(source lines 77-78), which is an in-place mutation of a torch.Size — an
immutable tuple — so for every valid rollout batch (5-dimensional, at least
2 time steps), every step count, every variational flag and every pair of
collaborator implementations, forward raises TypeError and returns the
simulation state untouched: no event is recorded, so in particular the
encoder is never invoked. -/
theorem claim10_shape_assignment_type_error (hgn : HGN H P G) (rb : Tensor)
    (b t c hgt w : Nat) (ns : Option Int) (v : Bool) (s : Sim P G)
    (hsh : rb.shape = [b, t, c, hgt, w]) (ht : 2 ≤ t) :
    hgn.forward rb ns v s = (Except.error PyErr.typeError, s) := by
  have hc : concat_rgb rb = Except.ok
      ⟨[b, 2 * c, hgt, w],
        (List.range b).flatMap fun i =>
          ((rb.data.drop (i * (t * (c * (hgt * w)))))).take (2 * (c * (hgt * w)))⟩ := by
    unfold concat_rgb
    rw [hsh]
    exact if_neg (by omega)
  simp [HGN.forward, SimM.bind_apply, SimM.ofExcept_apply, hc, torchSizeSetItem]

/-- Witness for C10 at a concrete valid batch (shape (1,2,1,2,2)), a concrete
step count 3 and concrete collaborators. -/
theorem claim10_shape_assignment_type_error_witness :
    hgnW.forward batW (some 3) true s0 = (Except.error PyErr.typeError, s0) :=
  claim10_shape_assignment_type_error hgnW batW 1 2 1 2 2 (some 3) true s0 rfl (by norm_num)

/-- C1 (code_bug evidence): at a concrete valid rollout batch with T = 2 time
steps, forward with n_steps = 2 — and likewise with n_steps omitted (None,
defaulting to seq_len) — raises TypeError at the shape item assignment and
returns no HgnResult at all, so it does not produce k states and k
reconstructions as the claim describes. -/
theorem claim1_forward_type_errors_instead_of_rollout :
    hgnW.forward batW (some 2) true s0 = (Except.error PyErr.typeError, s0)
      ∧ hgnW.forward batW none true s0 = (Except.error PyErr.typeError, s0) :=
  ⟨rfl, rfl⟩

/-- C2 (code_bug evidence): at a concrete valid batch, forward with
n_steps = 0 raises TypeError — not the ShapeError the claim requires (the
ShapeError check modelled in HgnResult.init is never reached) — and forward
with n_steps = 1 also raises TypeError instead of producing the initial
state/reconstruction pair. -/
theorem claim2_nonpositive_and_unit_steps_type_error :
    hgnW.forward batW (some 0) true s0 = (Except.error PyErr.typeError, s0)
      ∧ hgnW.forward batW (some 1) true s0 = (Except.error PyErr.typeError, s0) :=
  ⟨rfl, rfl⟩

/-- C3 (code_bug evidence): a rollout with a single time step does fail with
ShapeError (raised by the spec-modelled concat_rgb before the broken shape
assignment is reached), but the other half of the claim fails: a rollout with
exactly 2 time steps and n_steps = 1 does not succeed with one
state/reconstruction pair — it raises TypeError at the shape item
assignment. -/
theorem claim3_minimal_boundary_behavior :
    hgnW.forward batT1 (some 1) true s0 = (Except.error PyErr.shapeError, s0)
      ∧ hgnW.forward batW (some 1) false s0 = (Except.error PyErr.typeError, s0) :=
  ⟨rfl, rfl⟩

/-- C9 (code_bug evidence): forward with variational = false at a concrete
valid batch raises TypeError and leaves the state untouched, so the two calls
the claim compares produce no states and no reconstructions at all; there are
no outputs to be identical. -/
theorem claim9_forward_no_outputs :
    hgnW.forward batW (some 2) false s0 = (Except.error PyErr.typeError, s0) := rfl

/-- C4 (confirmed): if a fit call fails (any exception raised during the
forward pass or the loss computation propagates out of fit), then the
optimizer step has not executed — no optStep event is recorded — and the
parameters are exactly the initial ones: no partial parameter update is
applied. -/
theorem claim4_fit_no_partial_update (hgn : HGN H P G) (rollouts : Tensor) (v : Bool)
    (s : Sim P G) (e : PyErr) (_hfail : (hgn.fit rollouts v s).1 = Except.error e)
    (hs : Ev.optStep ∉ s.trace) :
    (hgn.fit rollouts v s).2.params = s.params
      ∧ Ev.optStep ∉ (hgn.fit rollouts v s).2.trace := by
  obtain ⟨e1, hf⟩ := forward_raises hgn rollouts none v
    { s with grads := hgn.optimizer_zero_grad s.grads, trace := s.trace ++ [Ev.zeroGradCall] }
  have hfit : hgn.fit rollouts v s = (Except.error e1,
      { s with grads := hgn.optimizer_zero_grad s.grads,
               trace := s.trace ++ [Ev.zeroGradCall] }) := by
    simp [HGN.fit, SimM.bind_apply, zeroGradAct, hf]
  rw [hfit]
  exact ⟨rfl, by simp [hs]⟩

/-- Witness for C4 at concrete inputs: the concrete fit call indeed fails,
and, applying the theorem, the parameters stay at their initial value 5 and
no optimizer-step event is recorded. -/
theorem claim4_fit_no_partial_update_witness :
    (hgnW.fit batW true s0).1 = Except.error PyErr.typeError
      ∧ ((hgnW.fit batW true s0).2.params = s0.params
          ∧ Ev.optStep ∉ (hgnW.fit batW true s0).2.trace) :=
  ⟨rfl, claim4_fit_no_partial_update hgnW batW true s0 PyErr.typeError rfl (by simp [s0])⟩

/-- C5 (confirmed, about the loss computation of fit, source lines 129-139):
the code's KL divergence equals the spec's closed-form expression
-0.5 * mean over elements of (1 + logvar - mean^2 - exp(logvar)); it is zero
whenever every element of the mean and of the log-variance is zero; and the
total loss that fit optimizes is reconstruction_error + beta * KL with the
fixed constant beta = 0.01. -/
theorem claim5_kl_closed_form (mu logvar : Tensor) :
    klDivergence mu logvar = klClosedForm mu logvar
      ∧ ((∀ x ∈ mu.data, x = 0) → (∀ x ∈ logvar.data, x = 0) →
          klDivergence mu logvar = 0)
      ∧ (∀ sc kl, totalLossOf sc (some kl) = sc.val + beta * kl.val)
      ∧ beta = 0.01 := by
  refine ⟨?_, ?_, fun sc kl => rfl, rfl⟩
  · unfold klDivergence klClosedForm Tensor.mean
    simp only [klDivergence_data]
  · intro hm hl
    unfold klDivergence Tensor.mean
    simp only [klDivergence_data]
    have hz : ∀ x ∈ (mu.data.zip logvar.data).map
        (fun ml => 1 + ml.2 - ml.1 ^ 2 - Real.exp ml.2), x = 0 := by
      intro x hx
      rw [List.mem_map] at hx
      obtain ⟨⟨a, b⟩, hab, hfx⟩ := hx
      obtain ⟨ha, hb⟩ := List.of_mem_zip hab
      rw [← hfx, hm a ha, hl b hb]
      norm_num [Real.exp_zero]
    rw [List.sum_eq_zero hz]
    simp

/-- Witness for C5: the KL of concrete all-zero mean and log-variance tensors
of shape (2,) is zero. -/
theorem claim5_kl_closed_form_witness : klDivergence (tenOf [2]) (tenOf [2]) = 0 := by
  refine (claim5_kl_closed_form (tenOf [2]) (tenOf [2])).2.1 ?_ ?_ <;>
    exact fun x hx => by simpa [tenOf] using hx

/-- C6 (confirmed, about the return computation of fit, source lines
125-146): every completed run of the post-forward part of fit returns, when
variational is true, a KL slot that is some plain numeric value (never none),
and, when variational is false, the absence marker none; the values returned
are plain numbers (type ℝ, detached from the autograd graph), paired with the
rollout result object itself. -/
theorem claim6_fit_kl_markers (hgn : HGN H P G) (pred : HgnResult) (v : Bool)
    (s s1 : Sim P G) (r : ℝ) (k : Option ℝ) (p : HgnResult)
    (hrun : hgn.fitAfterForward pred v s = (Except.ok (r, k, p), s1)) :
    (v = true → k ≠ none) ∧ (v = false → k = none) ∧ p = pred := by
  obtain ⟨sc, _, _, hp, _, _, hv1, hv0⟩ := fitAfterForward_run_spec hgn pred v s s1 r k p hrun
  refine ⟨fun hv => ?_, hv0, hp⟩
  obtain ⟨mu, lv, _, _, hk⟩ := hv1 hv
  simp [hk]

/-- C7 (confirmed, about the loss computation of fit, source lines 126-127,
with set_input from the forward pass, source line 80): in every completed run
of the post-forward part of fit, the returned reconstruction error is exactly
the numeric value produced by the configured loss applied to the stored
original input frames (prediction.input) and the stacked reconstructed frames
(prediction.reconstructed_rollout); the loss collaborator is indeed invoked
(its event is in the trace); and set_input stores exactly the batch it is
given, so the loss compares the original (channel-concatenated) frames
against the reconstructions. -/
theorem claim7_loss_alignment (hgn : HGN H P G) (pred : HgnResult) (v : Bool)
    (s s1 : Sim P G) (r : ℝ) (k : Option ℝ) (p : HgnResult)
    (hrun : hgn.fitAfterForward pred v s = (Except.ok (r, k, p), s1)) :
    (∃ sc, hgn.loss pred.input pred.reconstructed_rollout = Except.ok sc ∧ r = sc.val)
      ∧ Ev.lossCall ∈ s1.trace
      ∧ ∀ r0 batch, (HgnResult.set_input r0 batch).input = some batch := by
  obtain ⟨sc, hl, hr, _, htr, _, _, _⟩ := fitAfterForward_run_spec hgn pred v s s1 r k p hrun
  refine ⟨⟨sc, hl, hr⟩, ?_, fun r0 batch => rfl⟩
  rw [htr]
  simp

/-- A concrete HgnResult with all attributes set, as the forward pass would
produce them, used to witness the fit-side claims. -/
noncomputable def predW : HgnResult :=
  ((((⟨[1, 4, 2, 2, 2], none, none, none, none, [], []⟩ : HgnResult).set_input
      (tenOf [1, 4, 2, 2])).set_z (tenOf [1, 2]) (tenOf [1, 2])
      (tenOf [1, 2])).append_state (tenOf [1, 2]) (tenOf [1, 2])).append_reconstruction
    (tenOf [1, 2, 2, 2])

/-- Witness for C6 at concrete inputs with variational = true: the concrete
run succeeds and its KL slot is non-null. -/
theorem claim6_fit_kl_markers_witness :
    some (klDivergence (tenOf [1, 2]) (tenOf [1, 2])) ≠ (none : Option ℝ) :=
  (claim6_fit_kl_markers hgnW predW true s0
      ⟨[Ev.lossCall, Ev.backwardCall, Ev.optStep], 6, 8⟩ 1
      (some (klDivergence (tenOf [1, 2]) (tenOf [1, 2]))) predW rfl).1 rfl

/-- Witness for C7 at concrete inputs with variational = false: the concrete
run succeeds and the loss-call event is recorded in its trace. -/
theorem claim7_loss_alignment_witness :
    Ev.lossCall ∈ ([Ev.lossCall, Ev.backwardCall, Ev.optStep] : List Ev) :=
  (claim7_loss_alignment hgnW predW false s0
      ⟨[Ev.lossCall, Ev.backwardCall, Ev.optStep], 6, 8⟩ 1 none predW rfl).2.1

/-- C8 (confirmed): save ensures the target directory exists (no error, and
no change, when it already exists), writes exactly the four learnable
components to the four fixed filenames inside it and touches no other path;
load, when it succeeds, replaces exactly the four component references with
the deserialized objects from those same filenames and leaves the optimizer,
the loss, the integrator, the sequence length and the channel configuration
untouched. -/
theorem claim8_save_load_components_only (hgn : HGN H P G) (directory : String)
    (fs : FS H) (q : String × String)
    (hq1 : q ≠ pathJoin directory HGN.ENCODER_FILENAME)
    (hq2 : q ≠ pathJoin directory HGN.TRANSFORMER_FILENAME)
    (hq3 : q ≠ pathJoin directory HGN.HAMILTONIAN_FILENAME)
    (hq4 : q ≠ pathJoin directory HGN.DECODER_FILENAME) :
    (hgn.save directory fs).read (pathJoin directory HGN.ENCODER_FILENAME)
        = some (SavedObj.encoderObj hgn.encoder)
      ∧ (hgn.save directory fs).read (pathJoin directory HGN.TRANSFORMER_FILENAME)
        = some (SavedObj.transformerObj hgn.transformer)
      ∧ (hgn.save directory fs).read (pathJoin directory HGN.HAMILTONIAN_FILENAME)
        = some (SavedObj.hnnObj hgn.hnn)
      ∧ (hgn.save directory fs).read (pathJoin directory HGN.DECODER_FILENAME)
        = some (SavedObj.decoderObj hgn.decoder)
      ∧ (hgn.save directory fs).read q = fs.read q
      ∧ directory ∈ (hgn.save directory fs).dirs
      ∧ (directory ∈ fs.dirs → (hgn.save directory fs).dirs = fs.dirs)
      ∧ (∀ hgn2, hgn.load directory fs = Except.ok hgn2 →
          hgn2.optimizer_step = hgn.optimizer_step
            ∧ hgn2.optimizer_zero_grad = hgn.optimizer_zero_grad
            ∧ hgn2.loss = hgn.loss
            ∧ hgn2.seq_len = hgn.seq_len
            ∧ hgn2.integrator_step = hgn.integrator_step
            ∧ hgn2.channels = hgn.channels)
      ∧ (∀ e t hh d,
          fs.read (pathJoin directory HGN.ENCODER_FILENAME) = some (SavedObj.encoderObj e) →
          fs.read (pathJoin directory HGN.TRANSFORMER_FILENAME)
              = some (SavedObj.transformerObj t) →
          fs.read (pathJoin directory HGN.HAMILTONIAN_FILENAME) = some (SavedObj.hnnObj hh) →
          fs.read (pathJoin directory HGN.DECODER_FILENAME) = some (SavedObj.decoderObj d) →
          hgn.load directory fs
            = Except.ok { hgn with encoder := e, transformer := t, hnn := hh, decoder := d }) := by
  have het : (HGN.ENCODER_FILENAME : String) ≠ HGN.TRANSFORMER_FILENAME := by decide
  have heh : (HGN.ENCODER_FILENAME : String) ≠ HGN.HAMILTONIAN_FILENAME := by decide
  have hed : (HGN.ENCODER_FILENAME : String) ≠ HGN.DECODER_FILENAME := by decide
  have hth : (HGN.TRANSFORMER_FILENAME : String) ≠ HGN.HAMILTONIAN_FILENAME := by decide
  have htd : (HGN.TRANSFORMER_FILENAME : String) ≠ HGN.DECODER_FILENAME := by decide
  have hhd : (HGN.HAMILTONIAN_FILENAME : String) ≠ HGN.DECODER_FILENAME := by decide
  refine ⟨?_, ?_, ?_, ?_, ?_, ?_, ?_, ?_, ?_⟩
  · simp [HGN.save, FS.read_write, pathJoin, Prod.mk.injEq, het, heh, hed]
  · simp [HGN.save, FS.read_write, pathJoin, Prod.mk.injEq, hth, htd]
  · simp [HGN.save, FS.read_write, pathJoin, Prod.mk.injEq, hhd]
  · simp [HGN.save, FS.read_write, pathJoin, Prod.mk.injEq]
  · have hm : ∀ d1, (FS.mkdirP fs d1).read q = fs.read q := by
      intro d1
      unfold FS.mkdirP FS.read
      split <;> rfl
    simp [HGN.save, FS.read_write, hq1, hq2, hq3, hq4, hm]
  · by_cases hd : directory ∈ fs.dirs <;>
      simp [HGN.save, FS.write, FS.mkdirP, hd]
  · intro hd
    simp [HGN.save, FS.write, FS.mkdirP, hd]
  · intro hgn2 hld
    obtain ⟨e, t, hh, d, rfl⟩ := load_fields hgn directory fs hgn2 hld
    exact ⟨rfl, rfl, rfl, rfl, rfl, rfl⟩
  · intro e t hh d h1 h2 h3 h4
    unfold HGN.load
    simp [torch_load, h1, h2, h3, h4, asEncoder, asTransformer, asHnn, asDecoder,
      Bind.bind, Except.bind]
    rfl

/-- A concrete target directory for the persistence witness. -/
def dirW : String := "models"

/-- A second directory, used to form a path untouched by save. -/
def dirB : String := "elsewhere"

/-- A concrete path outside the four checkpoint paths of dirW. -/
def qW : String × String := pathJoin dirB HGN.ENCODER_FILENAME

/-- An empty concrete filesystem. -/
def fs0 : FS Unit := ⟨[], []⟩

/-- Witness for C8 at concrete inputs: saving the concrete model into the
empty filesystem stores the encoder at (models, encoder.pt), leaves the
unrelated path untouched, and creates the directory. -/
theorem claim8_save_load_components_only_witness :
    (hgnW.save dirW fs0).read (pathJoin dirW HGN.ENCODER_FILENAME)
        = some (SavedObj.encoderObj hgnW.encoder)
      ∧ (hgnW.save dirW fs0).read qW = fs0.read qW
      ∧ dirW ∈ (hgnW.save dirW fs0).dirs := by
  obtain ⟨h1, _, _, _, h5, h6, _⟩ :=
    claim8_save_load_components_only hgnW dirW fs0 qW (by decide) (by decide) (by decide)
      (by decide)
  exact ⟨h1, h5, h6⟩

end HGNV
